import Mathlib

/-!
Verification of the audio relay server (`src/app.js`).

The server exposes two POST routes over Express:
* `/api/record_audio` — validates a multipart upload (`audioData` file,
  `fileName` body field), writes the buffer to a scratch file, transcribes
  the in-memory buffer via an external speech service, deletes the scratch
  file, translates the transcript, and responds.
* `/api/synthesize` — validates a `text` field, synthesizes speech via an
  external service, writes the bytes to `output_<Date.now()>.wav`, and
  responds with a retrieval URL.

The embedding below is a shallow one: external services and the outcomes
of filesystem syscalls are an oracle (`Env`); handlers are pure functions
from the request, the oracle and the filesystem state to a response, a new
filesystem state, and a trace of attempted external/filesystem operations.
JavaScript object literals (which resolve duplicate keys by letting the
last assignment win) are modelled by `mkObj`; the JavaScript value
`undefined` appearing in a response body is modelled by `BodyVal.undef`.
-/

namespace AudioServer

/-- Raw byte contents of a file or upload buffer. -/
abbrev Bytes := List Nat

/-- The local filesystem: an association of paths to contents (unique paths). -/
abbrev Fs := List (String × Bytes)

/-- Remove every entry at path `p` (real filesystems hold one file per path). -/
def fsErase (fs : Fs) (p : String) : Fs :=
  fs.filter (fun e => ¬ (e.1 = p))

/-- `fs.writeFileSync(p, b)`: create or overwrite the file at `p`. -/
def fsWrite (fs : Fs) (p : String) (b : Bytes) : Fs :=
  (p, b) :: fsErase fs p

/-- `fs.unlinkSync(p)`: delete the file at `p`. -/
def fsUnlink (fs : Fs) (p : String) : Fs :=
  fsErase fs p

/-- Read back the contents of the file at `p`, if it exists. -/
def fsRead (fs : Fs) (p : String) : Option Bytes :=
  (fs.find? (fun e => e.1 = p)).map Prod.snd

/-- One alternative in a recognized segment of the speech service's response. -/
structure SpeechAlt where
  transcript : String
deriving Repr, DecidableEq

/-- One recognized segment: `result.alternatives` in the service response. -/
structure SpeechResult where
  alternatives : List SpeechAlt
deriving Repr, DecidableEq

/-- The external speech service's response: `response.results`. -/
structure RecognizeResponse where
  results : List SpeechResult
deriving Repr, DecidableEq

/-- Oracle for the external services and fallible filesystem syscalls during
one request.  `none` as an external outcome means the awaited call rejected
(the adapter catches it); `false` for a syscall means it threw. -/
structure Env where
  /-- Outcome of `client.recognize` on the audio content sent (the base64 of
  the in-memory buffer); `none` means the call failed. -/
  recognize : Bytes → Option RecognizeResponse
  /-- Outcome of `translateClient.translate text lang`; the first argument is
  the JavaScript value passed (possibly `undefined`); `none` means failure. -/
  translate : Option String → String → Option String
  /-- Outcome of `ttsClient.synthesizeSpeech`: the `audioContent` bytes, or
  `none` if the call failed. -/
  synthesize : String → Option Bytes
  /-- `Date.now()` observed by this request, in epoch milliseconds. -/
  now : Nat
  /-- Whether `fs.writeFileSync` on the scratch path succeeds. -/
  writeOk : Bool
  /-- Whether `fs.unlinkSync` on the scratch path succeeds. -/
  unlinkOk : Bool
  /-- Whether `fs.writeFileSync` of the synthesized output succeeds. -/
  outWriteOk : Bool
  /-- Contents written over the scratch file by a concurrent request between
  the write and the unlink, if any (the handler itself never reads them). -/
  scratchTamper : Option Bytes

/-- `result.alternatives[0].transcript`: the best alternative's transcript.
On an empty `alternatives` array the JavaScript expression evaluates
`undefined.transcript`, which throws; `none` models that throw. -/
def bestAlt (r : SpeechResult) : Option String :=
  match r.alternatives with
  | [] => none
  | a :: _ => some a.transcript

/-- `response.results.map(r => r.alternatives[0].transcript).join(' ')`.
`none` when some segment has no alternatives (the map throws). -/
def transcriptOfResponse (resp : RecognizeResponse) : Option String :=
  (resp.results.mapM bestAlt).map (fun l => String.intercalate " " l)

/-- The `speechToText` adapter: sends the in-memory buffer (base64-encoded)
to the external speech service and joins the per-segment best transcripts.
Every failure is caught inside the adapter and becomes `none` (`undefined`). -/
def speechToText (env : Env) (audioFile : Bytes) : Option String :=
  match env.recognize audioFile with
  | none => none
  | some resp => transcriptOfResponse resp

/-- The `translateText` adapter: forwards `text` (a JavaScript value, possibly
`undefined`) and the target language to the translation service; failures are
caught and become `none` (`undefined`). -/
def translateText (env : Env) (text : Option String) (textLang : String) : Option String :=
  env.translate text textLang

/-- The `synthesizer` adapter: sends `text` to the text-to-speech service and
returns `response.audioContent`; failures are caught and become `none`. -/
def synthesizer (env : Env) (text : String) : Option Bytes :=
  env.synthesize text

/-- The error object thrown by a filesystem operation (or by writing an
`undefined` buffer), as caught at a handler's outermost boundary. -/
inductive JsError where
  /-- `fs.writeFileSync` threw at the given path. -/
  | fsWriteError (p : String)
  /-- `fs.unlinkSync` threw at the given path. -/
  | fsUnlinkError (p : String)
  /-- `TypeError`: `fs.writeFileSync(p, undefined)` rejects its data argument. -/
  | typeErrorUndefinedBuffer (p : String)
deriving Repr, DecidableEq

/-- A JavaScript value appearing in a response body. -/
inductive BodyVal where
  /-- A string value. -/
  | s (v : String)
  /-- The JavaScript value `undefined`. -/
  | undef
  /-- A caught error object. -/
  | errObj (e : JsError)
deriving Repr, DecidableEq

/-- A JavaScript object: keys in insertion order, one value per key. -/
abbrev Obj := List (String × BodyVal)

/-- Assign `k := v` in an object: a later assignment to an existing key
overwrites its value in place, otherwise the key is appended. -/
def objInsert (o : Obj) (k : String) (v : BodyVal) : Obj :=
  if o.any (fun e => e.1 = k) then o.map (fun e => if e.1 = k then (k, v) else e)
  else o ++ [(k, v)]

/-- Evaluate a JavaScript object literal: entries are assigned left to right,
so with duplicate keys the last value wins. -/
def mkObj (entries : List (String × BodyVal)) : Obj :=
  entries.foldl (fun o e => objInsert o e.1 e.2) []

/-- Look up key `k` in an object. -/
def objGet (o : Obj) (k : String) : Option BodyVal :=
  (o.find? (fun e => e.1 = k)).map Prod.snd

/-- An HTTP response: status code and JSON body. -/
structure Response where
  status : Nat
  body : Obj
deriving Repr, DecidableEq

/-- An attempted external call or filesystem syscall, in order of attempt. -/
inductive Ev where
  /-- `client.recognize` was invoked. -/
  | extRecognize
  /-- `translateClient.translate` was invoked. -/
  | extTranslate
  /-- `ttsClient.synthesizeSpeech` was invoked. -/
  | extSynthesize
  /-- `fs.writeFileSync` was invoked at the given path. -/
  | fsWriteEv (p : String)
  /-- `fs.unlinkSync` was invoked at the given path. -/
  | fsUnlinkEv (p : String)
deriving Repr, DecidableEq

/-- Result of running a handler: the response sent, the filesystem state
when the response is sent, and the trace of attempted operations. -/
structure HResult where
  resp : Response
  fs : Fs
  trace : List Ev
deriving Repr, DecidableEq

/-- `path.join(__dirname, 'audio_files', name)`: a path in the scratch/output
directory. -/
def audioPath (name : String) : String :=
  "audio_files/" ++ name

/-- The generated output file name for a synthesis request observing the
given `Date.now()` value. -/
def outputName (now : Nat) : String :=
  "output_" ++ toString now ++ ".wav"

/-- A parsed `/api/record_audio` request: `req.file` (the `audioData` upload
buffered by multer, absent if no file part) and `req.body.fileName`. -/
structure RecordReq where
  file : Option Bytes
  fileName : Option String
deriving Repr, DecidableEq

/-- A parsed `/api/synthesize` request: the `text` field of the JSON body. -/
structure SynthReq where
  text : Option String
deriving Repr, DecidableEq

/-- JavaScript truthiness of `req.body.fileName` / `text`: absent
(`undefined`) and the empty string are falsy. -/
def truthy : Option String → Bool
  | none => false
  | some s => s ≠ ""

/-- The 400 response of `/api/record_audio`. -/
def recordBadRequest : Response :=
  ⟨400, mkObj [("error", .s "Audio data and file name are required")]⟩

/-- The 500 response of `/api/record_audio`: the object literal
`{ error: 'Failed to process audio', error }` assigns the key `error` twice. -/
def recordServerError (e : JsError) : Response :=
  ⟨500, mkObj [("error", .s "Failed to process audio"), ("error", .errObj e)]⟩

/-- A string field of a 200 body; a JavaScript `undefined` stays `undefined`. -/
def optField : Option String → BodyVal
  | none => .undef
  | some v => .s v

/-- The `POST /api/record_audio` handler: validate, write the buffer to
`<scratch>/<fileName>`, transcribe the in-memory buffer, unlink the scratch
file, translate, respond 200; any exception reaching the outermost catch
produces the 500 response. -/
def recordAudio (env : Env) (req : RecordReq) (fs : Fs) : HResult :=
  match req.file with
  | none => ⟨recordBadRequest, fs, []⟩
  | some buf =>
    if h : truthy req.fileName then
      let fileName := req.fileName.get (by
        cases hf : req.fileName with
        | none => rw [hf] at h; exact absurd h (by simp [truthy])
        | some s => simp)
      let filePath := audioPath fileName
      if env.writeOk then
        let fs1 := fsWrite fs filePath buf
        let fs2 := match env.scratchTamper with
          | some b => fsWrite fs1 filePath b
          | none => fs1
        let transcription := speechToText env buf
        if env.unlinkOk then
          let fs3 := fsUnlink fs2 filePath
          let translated := translateText env transcription "en"
          ⟨⟨200, mkObj [("message", .s "Transcription successful"),
                        ("audioTranscription", optField transcription),
                        ("translatedText", optField translated)]⟩,
           fs3,
           [.fsWriteEv filePath, .extRecognize, .fsUnlinkEv filePath, .extTranslate]⟩
        else
          ⟨recordServerError (.fsUnlinkError filePath), fs2,
           [.fsWriteEv filePath, .extRecognize, .fsUnlinkEv filePath]⟩
      else
        ⟨recordServerError (.fsWriteError filePath), fs, [.fsWriteEv filePath]⟩
    else ⟨recordBadRequest, fs, []⟩

/-- The 400 response of `/api/synthesize`. -/
def synthBadRequest : Response :=
  ⟨400, mkObj [("error", .s "Text is required for synthesis")]⟩

/-- The 500 response of `/api/synthesize`. -/
def synthServerError : Response :=
  ⟨500, mkObj [("error", .s "Failed to synthesize text")]⟩

/-- The `POST /api/synthesize` handler: validate, synthesize, write the bytes
to `output_<Date.now()>.wav`, respond with the retrieval URL; writing an
`undefined` buffer throws a `TypeError`, and any exception reaching the
outermost catch produces the 500 response. -/
def synthesize (env : Env) (req : SynthReq) (fs : Fs) : HResult :=
  if h : truthy req.text then
    let t := req.text.get (by
      cases ht : req.text with
      | none => rw [ht] at h; exact absurd h (by simp [truthy])
      | some s => simp)
    let audioBuffer := synthesizer env t
    let audioFileName := outputName env.now
    let audioFilePath := audioPath audioFileName
    match audioBuffer with
    | none =>
      ⟨synthServerError, fs, [.extSynthesize, .fsWriteEv audioFilePath]⟩
    | some b =>
      if env.outWriteOk then
        ⟨⟨200, mkObj [("audioURL", .s ("http://localhost:3001/audio/" ++ audioFileName))]⟩,
         fsWrite fs audioFilePath b,
         [.extSynthesize, .fsWriteEv audioFilePath]⟩
      else
        ⟨synthServerError, fs, [.extSynthesize, .fsWriteEv audioFilePath]⟩
  else ⟨synthBadRequest, fs, []⟩

/-! ### Shared lemmas: decimal rendering of `Nat` is injective, path algebra,
filesystem reads after erasure. -/

/-- Decimal value of a digit character. -/
def digitVal (c : Char) : Nat := c.toNat - 48

/-- Value of a decimal digit string, most significant digit first. -/
def digitsVal (l : List Char) : Nat :=
  l.foldl (fun a c => a * 10 + digitVal c) 0

lemma digitVal_digitChar {d : Nat} (h : d < 10) : digitVal (Nat.digitChar d) = d := by
  interval_cases d <;> decide

lemma toDigitsCore_shift (f : Nat) : ∀ (n : Nat) (ds : List Char),
    Nat.toDigitsCore 10 f n ds = Nat.toDigitsCore 10 f n [] ++ ds := by
  induction f with
  | zero => intro n ds; simp [Nat.toDigitsCore]
  | succ f ih =>
    intro n ds
    simp only [Nat.toDigitsCore]
    by_cases h : n / 10 = 0
    · simp [h]
    · simp only [if_neg h]
      rw [ih (n / 10) (Nat.digitChar (n % 10) :: ds), ih (n / 10) [Nat.digitChar (n % 10)]]
      simp

lemma digitsVal_append_singleton (l : List Char) (c : Char) :
    digitsVal (l ++ [c]) = digitsVal l * 10 + digitVal c := by
  simp [digitsVal, List.foldl_append]

lemma digitsVal_toDigitsCore (f : Nat) : ∀ n : Nat, n < 10 ^ f →
    digitsVal (Nat.toDigitsCore 10 f n []) = n := by
  induction f with
  | zero =>
    intro n hn
    have h0 : n = 0 := by simpa using hn
    subst h0
    simp [Nat.toDigitsCore, digitsVal]
  | succ f ih =>
    intro n hn
    simp only [Nat.toDigitsCore]
    by_cases h : n / 10 = 0
    · have hlt : n < 10 := by omega
      simp [if_pos h, digitsVal, digitVal_digitChar (Nat.mod_lt n (by norm_num))]
      omega
    · rw [if_neg h, toDigitsCore_shift, digitsVal_append_singleton,
        ih (n / 10) (by rw [Nat.div_lt_iff_lt_mul (by norm_num)]; simpa [pow_succ] using hn),
        digitVal_digitChar (Nat.mod_lt n (by omega))]
      omega

lemma digitsVal_toDigits (n : Nat) : digitsVal (Nat.toDigits 10 n) = n := by
  have h : n < 10 ^ (n + 1) :=
    lt_of_lt_of_le (Nat.lt_pow_self (by norm_num) n)
      (Nat.pow_le_pow_right (by norm_num) (Nat.le_succ n))
  exact digitsVal_toDigitsCore (n + 1) n h

lemma natRepr_injective : Function.Injective Nat.repr := by
  intro m n h
  have h2 : Nat.toDigits 10 m = Nat.toDigits 10 n := by
    unfold Nat.repr at h
    rwa [List.asString_inj] at h
  calc m = digitsVal (Nat.toDigits 10 m) := (digitsVal_toDigits m).symm
    _ = digitsVal (Nat.toDigits 10 n) := by rw [h2]
    _ = n := digitsVal_toDigits n

lemma string_sandwich_inj {p s a b : String} (h : p ++ a ++ s = p ++ b ++ s) : a = b := by
  apply String.ext
  have hd : p.data ++ (a.data ++ s.data) = p.data ++ (b.data ++ s.data) := by
    have h2 := congrArg String.data h
    simpa [String.data_append, List.append_assoc] using h2
  exact List.append_cancel_right (List.append_cancel_left hd)

lemma outputName_inj {m n : Nat} (h : outputName m = outputName n) : m = n :=
  natRepr_injective (string_sandwich_inj h)

lemma audioPath_inj {a b : String} (h : audioPath a = audioPath b) : a = b := by
  apply String.ext
  have hd := congrArg String.data h
  simp only [audioPath, String.data_append] at hd
  exact List.append_cancel_left hd

lemma fsRead_fsErase (fs : Fs) (p : String) : fsRead (fsErase fs p) p = none := by
  have h : (fsErase fs p).find? (fun e => decide (e.1 = p)) = none := by
    rw [List.find?_eq_none]
    intro x hx
    rw [fsErase, List.mem_filter] at hx
    simpa using hx.2
  simp [fsRead, h]


/-- A concrete oracle used to instantiate theorems at specific inputs. -/
def envC : Env :=
  { recognize := fun _ => some ⟨[⟨[⟨"hola"⟩]⟩, ⟨[⟨"mundo"⟩]⟩]⟩
    translate := fun _ _ => some "hello world"
    synthesize := fun _ => some [1, 2, 3]
    now := 7
    writeOk := true
    unlinkOk := true
    outWriteOk := true
    scratchTamper := none }

/-- C1: a request to `/api/record_audio` missing the `audioData` file or the
`fileName` field, or a request to `/api/synthesize` missing `text`, gets a 400
response with an `error` field, before any external call or filesystem write:
the trace is empty and the filesystem is unchanged. -/
theorem missing_required_input_rejected_early
    (env : Env) (rq : RecordReq) (sq : SynthReq) (fs : Fs) :
    ((rq.file = none ∨ rq.fileName = none) →
      (recordAudio env rq fs).resp.status = 400 ∧
      (∃ v, objGet (recordAudio env rq fs).resp.body "error" = some v) ∧
      (recordAudio env rq fs).trace = [] ∧
      (recordAudio env rq fs).fs = fs) ∧
    (sq.text = none →
      (synthesize env sq fs).resp.status = 400 ∧
      (∃ v, objGet (synthesize env sq fs).resp.body "error" = some v) ∧
      (synthesize env sq fs).trace = [] ∧
      (synthesize env sq fs).fs = fs) := by
  constructor
  · rintro (hf | hn)
    · simp [recordAudio, hf, recordBadRequest, mkObj, objInsert, objGet]
    · rcases hq : rq.file with _ | buf
      · simp [recordAudio, hq, recordBadRequest, mkObj, objInsert, objGet]
      · simp [recordAudio, hq, hn, truthy, recordBadRequest, mkObj, objInsert, objGet]
  · intro ht
    simp [synthesize, ht, truthy, synthBadRequest, mkObj, objInsert, objGet]

/-- Witness for C1 at a concrete request with both fields missing. -/
theorem missing_required_input_rejected_early_witness :
    ((recordAudio envC ⟨none, none⟩ []).resp.status = 400 ∧
      (∃ v, objGet (recordAudio envC ⟨none, none⟩ []).resp.body "error" = some v) ∧
      (recordAudio envC ⟨none, none⟩ []).trace = [] ∧
      (recordAudio envC ⟨none, none⟩ []).fs = []) ∧
    ((synthesize envC ⟨none⟩ []).resp.status = 400 ∧
      (∃ v, objGet (synthesize envC ⟨none⟩ []).resp.body "error" = some v) ∧
      (synthesize envC ⟨none⟩ []).trace = [] ∧
      (synthesize envC ⟨none⟩ []).fs = []) :=
  ⟨(missing_required_input_rejected_early envC ⟨none, none⟩ ⟨none⟩ []).1 (Or.inl rfl),
   (missing_required_input_rejected_early envC ⟨none, none⟩ ⟨none⟩ []).2 rfl⟩

/-- C9: an empty-string `fileName` (route A) or empty-string `text` (route B)
is falsy in JavaScript, so the request is rejected with 400 exactly as if the
field were absent: the handler results coincide. -/
theorem empty_string_fields_rejected_like_absent
    (env : Env) (buf : Bytes) (fs : Fs) :
    recordAudio env ⟨some buf, some ""⟩ fs = recordAudio env ⟨some buf, none⟩ fs ∧
    (recordAudio env ⟨some buf, some ""⟩ fs).resp.status = 400 ∧
    synthesize env ⟨some ""⟩ fs = synthesize env ⟨none⟩ fs ∧
    (synthesize env ⟨some ""⟩ fs).resp.status = 400 := by
  refine ⟨rfl, rfl, rfl, rfl⟩

/-- C7: the scratch file's on-disk contents after the write are never read
back: two executions of `/api/record_audio` that differ only in what the
scratch file holds after it is written produce the same transcription and
translation results and the same response and trace. -/
theorem scratch_file_contents_noninterference
    (env : Env) (t1 t2 : Option Bytes) (req : RecordReq) (fs : Fs) :
    speechToText { env with scratchTamper := t1 } =
      speechToText { env with scratchTamper := t2 } ∧
    translateText { env with scratchTamper := t1 } =
      translateText { env with scratchTamper := t2 } ∧
    (recordAudio { env with scratchTamper := t1 } req fs).resp =
      (recordAudio { env with scratchTamper := t2 } req fs).resp ∧
    (recordAudio { env with scratchTamper := t1 } req fs).trace =
      (recordAudio { env with scratchTamper := t2 } req fs).trace := by
  refine ⟨rfl, rfl, ?_, ?_⟩ <;>
  · rcases req with ⟨_ | buf, name⟩
    · rfl
    · by_cases h : truthy name
      · simp only [recordAudio, dif_pos h]
        cases hw : env.writeOk <;> cases hu : env.unlinkOk <;>
          simp [hw, hu, speechToText, translateText]
      · simp only [recordAudio, dif_neg h]


/-- An oracle whose transcription and translation calls fail. -/
def envFail : Env :=
  { envC with recognize := fun _ => none, translate := fun _ _ => none }

/-- C2: on a valid `/api/record_audio` request, a failed transcription or
translation call is never surfaced as an error status: the response status is
the same as against adapters that always fail, and on the normal filesystem
path the handler responds 200 with the corresponding body field `undefined`
because the adapter catches the failure and returns `undefined`. -/
theorem adapter_failure_still_ok_response
    (env : Env) (buf : Bytes) (name : String) (fs : Fs) (hname : name ≠ "") :
    ((recordAudio { env with recognize := fun _ => none, translate := fun _ _ => none }
        ⟨some buf, some name⟩ fs).resp.status =
      (recordAudio env ⟨some buf, some name⟩ fs).resp.status) ∧
    (env.writeOk = true → env.unlinkOk = true →
      (env.recognize buf = none →
        speechToText env buf = none ∧
        (recordAudio env ⟨some buf, some name⟩ fs).resp.status = 200 ∧
        objGet (recordAudio env ⟨some buf, some name⟩ fs).resp.body "audioTranscription" =
          some .undef) ∧
      (env.translate (speechToText env buf) "en" = none →
        translateText env (speechToText env buf) "en" = none ∧
        (recordAudio env ⟨some buf, some name⟩ fs).resp.status = 200 ∧
        objGet (recordAudio env ⟨some buf, some name⟩ fs).resp.body "translatedText" =
          some .undef)) := by
  constructor
  · cases hw : env.writeOk <;> cases hu : env.unlinkOk <;>
      simp [recordAudio, truthy, hname, hw, hu]
  · intro hw hu
    constructor
    · intro hr
      have hst : speechToText env buf = none := by simp [speechToText, hr]
      refine ⟨hst, ?_, ?_⟩ <;>
        simp [recordAudio, truthy, hname, hw, hu, hst, mkObj, objInsert, objGet, optField]
    · intro ht
      have htr : translateText env (speechToText env buf) "en" = none := ht
      refine ⟨htr, ?_, ?_⟩ <;>
        simp [recordAudio, truthy, hname, hw, hu, translateText, ht, mkObj, objInsert, objGet,
          optField]

/-- Witness for C2 at a concrete request against failing services. -/
theorem adapter_failure_still_ok_response_witness :
    ((recordAudio { envFail with recognize := fun _ => none, translate := fun _ _ => none }
        ⟨some [9], some "a.webm"⟩ []).resp.status =
      (recordAudio envFail ⟨some [9], some "a.webm"⟩ []).resp.status) ∧
    (envFail.writeOk = true → envFail.unlinkOk = true →
      (envFail.recognize [9] = none →
        speechToText envFail [9] = none ∧
        (recordAudio envFail ⟨some [9], some "a.webm"⟩ []).resp.status = 200 ∧
        objGet (recordAudio envFail ⟨some [9], some "a.webm"⟩ []).resp.body
          "audioTranscription" = some .undef) ∧
      (envFail.translate (speechToText envFail [9]) "en" = none →
        translateText envFail (speechToText envFail [9]) "en" = none ∧
        (recordAudio envFail ⟨some [9], some "a.webm"⟩ []).resp.status = 200 ∧
        objGet (recordAudio envFail ⟨some [9], some "a.webm"⟩ []).resp.body
          "translatedText" = some .undef)) :=
  adapter_failure_still_ok_response envFail [9] "a.webm" [] (by decide)

/-- The spec's description of the transcription result: the per-segment best
(first) alternative transcripts, joined by single spaces. -/
def specJoinedBestTranscripts (resp : RecognizeResponse) : String :=
  String.intercalate " " (resp.results.map (fun r => (r.alternatives.headD ⟨""⟩).transcript))

lemma mapM_bestAlt_eq (l : List SpeechResult) (h : ∀ r ∈ l, r.alternatives ≠ []) :
    l.mapM bestAlt = some (l.map (fun r => (r.alternatives.headD ⟨""⟩).transcript)) := by
  induction l with
  | nil => rfl
  | cons a l ih =>
    have ha : a.alternatives ≠ [] := h a (List.mem_cons_self a l)
    rcases haa : a.alternatives with _ | ⟨x, xs⟩
    · exact absurd haa ha
    · rw [List.mapM_cons, ih (fun r hr => h r (List.mem_cons_of_mem a hr))]
      simp [bestAlt, haa]

/-- C6: a successful transcription is the space-joined concatenation of the
first (best) alternative transcript of each recognized segment of the
external service's response. -/
theorem transcription_joins_best_alternatives
    (env : Env) (buf : Bytes) (resp : RecognizeResponse)
    (hr : env.recognize buf = some resp)
    (ha : ∀ r ∈ resp.results, r.alternatives ≠ []) :
    speechToText env buf = some (specJoinedBestTranscripts resp) := by
  unfold speechToText
  rw [hr]
  show transcriptOfResponse resp = some (specJoinedBestTranscripts resp)
  unfold transcriptOfResponse
  rw [mapM_bestAlt_eq resp.results ha]
  rfl

/-- Witness for C6 at a concrete two-segment service response. -/
theorem transcription_joins_best_alternatives_witness :
    speechToText envC [9] =
      some (specJoinedBestTranscripts ⟨[⟨[⟨"hola"⟩]⟩, ⟨[⟨"mundo"⟩]⟩]⟩) :=
  transcription_joins_best_alternatives envC [9] ⟨[⟨[⟨"hola"⟩]⟩, ⟨[⟨"mundo"⟩]⟩]⟩
    rfl (by decide)

/-- An oracle whose synthesis call fails. -/
def envSynthFail : Env :=
  { envC with synthesize := fun _ => none }

/-- C8: on `/api/synthesize` with `text` present, when the synthesis call
fails the adapter returns `undefined`, writing the `undefined` buffer throws,
and the handler responds 500 with `error: 'Failed to synthesize text'` and no
file is created — a silent adapter failure does not yield a 200 here. -/
theorem synthesize_adapter_failure_500
    (env : Env) (t : String) (fs : Fs)
    (ht : t ≠ "") (hs : env.synthesize t = none) :
    synthesizer env t = none ∧
    (synthesize env ⟨some t⟩ fs).resp.status = 500 ∧
    objGet (synthesize env ⟨some t⟩ fs).resp.body "error" =
      some (.s "Failed to synthesize text") ∧
    (synthesize env ⟨some t⟩ fs).fs = fs ∧
    (synthesize env ⟨some t⟩ fs).resp.status ≠ 200 := by
  refine ⟨hs, ?_, ?_, ?_, ?_⟩ <;>
    simp [synthesize, truthy, ht, synthesizer, hs, synthServerError, mkObj, objInsert, objGet]

/-- Witness for C8 at a concrete request against a failing synthesis service. -/
theorem synthesize_adapter_failure_500_witness :
    synthesizer envSynthFail "hola" = none ∧
    (synthesize envSynthFail ⟨some "hola"⟩ []).resp.status = 500 ∧
    objGet (synthesize envSynthFail ⟨some "hola"⟩ []).resp.body "error" =
      some (.s "Failed to synthesize text") ∧
    (synthesize envSynthFail ⟨some "hola"⟩ []).fs = [] ∧
    (synthesize envSynthFail ⟨some "hola"⟩ []).resp.status ≠ 200 :=
  synthesize_adapter_failure_500 envSynthFail "hola" [] (by decide) rfl


lemma fsRead_fsWrite (fs : Fs) (p : String) (b : Bytes) :
    fsRead (fsWrite fs p b) p = some b := by
  unfold fsRead fsWrite
  rw [List.find?_cons_of_pos _ (by simp)]
  rfl

/-- The body of the route A 500 response: the duplicate-key literal resolves
to the single key `error` holding the caught error object. -/
lemma recordServerError_body (e : JsError) :
    (recordServerError e).body = [("error", BodyVal.errObj e)] := rfl

/-- A concrete oracle whose scratch-file `unlinkSync` throws. -/
def envUnlinkFail : Env := { envC with unlinkOk := false }

/-- C3 counterexample: on a valid request in which no step throws before the
deletion step but the deletion itself throws, the response is not 200 and the
scratch file still exists when the response is sent. -/
theorem unlink_throw_breaks_deletion_claim :
    envUnlinkFail.writeOk = true ∧
    (recordAudio envUnlinkFail ⟨some [9], some "a.webm"⟩ []).resp.status ≠ 200 ∧
    fsRead (recordAudio envUnlinkFail ⟨some [9], some "a.webm"⟩ []).fs
      (audioPath "a.webm") = some [9] := by decide

/-- C3 amended: on a valid request in which no step throws before or during
the deletion step, the response status is 200 and the scratch file at
`<scratch>/<fileName>` no longer exists when the response is sent. -/
theorem scratch_file_deleted_on_success
    (env : Env) (buf : Bytes) (name : String) (fs : Fs)
    (hname : name ≠ "") (hw : env.writeOk = true) (hu : env.unlinkOk = true) :
    (recordAudio env ⟨some buf, some name⟩ fs).resp.status = 200 ∧
    fsRead (recordAudio env ⟨some buf, some name⟩ fs).fs (audioPath name) = none := by
  constructor
  · simp [recordAudio, truthy, hname, hw, hu]
  · simp [recordAudio, truthy, hname, hw, hu, fsUnlink, fsRead_fsErase]

/-- Witness for the amended C3 at a concrete request. -/
theorem scratch_file_deleted_on_success_witness :
    (recordAudio envC ⟨some [9], some "a.webm"⟩ []).resp.status = 200 ∧
    fsRead (recordAudio envC ⟨some [9], some "a.webm"⟩ []).fs (audioPath "a.webm") = none :=
  scratch_file_deleted_on_success envC [9] "a.webm" [] (by decide) rfl rfl

/-- A concrete oracle whose scratch-file `writeFileSync` throws. -/
def envWriteFail : Env := { envC with writeOk := false }

/-- C4 counterexample: when an exception reaches the outermost catch of
`/api/record_audio`, the 500 body does NOT carry the static message
'Failed to process audio' under the key `error`: the duplicate-key literal is
evaluated with the last assignment winning, so the body holds only the raised
error object. -/
theorem error_key_overwritten :
    (recordAudio envWriteFail ⟨some [9], some "a.webm"⟩ []).resp.status = 500 ∧
    ("error", BodyVal.errObj (.fsWriteError (audioPath "a.webm"))) ∈
      (recordAudio envWriteFail ⟨some [9], some "a.webm"⟩ []).resp.body ∧
    ¬ (("error", BodyVal.s "Failed to process audio") ∈
      (recordAudio envWriteFail ⟨some [9], some "a.webm"⟩ []).resp.body) := by decide

/-- C4 amended: whenever an exception reaches the outermost catch of
`/api/record_audio`, the response has status 500 and its body is the single
JSON key `error` holding the raised error object; the static message
'Failed to process audio' is discarded by the duplicate-key overwrite. -/
theorem record_audio_500_single_error_key
    (env : Env) (req : RecordReq) (fs : Fs)
    (h : (recordAudio env req fs).resp.status = 500) :
    ∃ e, (recordAudio env req fs).resp.body = [("error", BodyVal.errObj e)] := by
  rcases req with ⟨_ | buf, name⟩
  · exact absurd h (by simp [recordAudio, recordBadRequest, mkObj, objInsert])
  · by_cases ht : truthy name
    · simp only [recordAudio, dif_pos ht] at h ⊢
      cases hw : env.writeOk <;> simp only [hw, Bool.false_eq_true, if_false, if_true] at h ⊢
      · exact ⟨_, rfl⟩
      · cases hu : env.unlinkOk <;> simp only [hu, Bool.false_eq_true, if_false, if_true] at h ⊢
        · exact ⟨_, rfl⟩
        · exact absurd h (by simp)
    · exact absurd h (by simp [recordAudio, dif_neg ht, recordBadRequest, mkObj, objInsert])

/-- Witness for the amended C4 at a concrete failing write. -/
theorem record_audio_500_single_error_key_witness :
    ∃ e, (recordAudio envWriteFail ⟨some [9], some "a.webm"⟩ []).resp.body =
      [("error", BodyVal.errObj e)] :=
  record_audio_500_single_error_key envWriteFail ⟨some [9], some "a.webm"⟩ [] (by decide)

/-- C10: on a valid `/api/record_audio` request the adapters never throw, so
the response is 500 exactly when a filesystem syscall throws; whenever the
scratch write succeeds the deletion step is reached; and every 500 carries a
filesystem error object, never a transcription or translation failure. -/
theorem record_audio_500_only_filesystem
    (env : Env) (buf : Bytes) (name : String) (fs : Fs) (hname : name ≠ "") :
    ((recordAudio env ⟨some buf, some name⟩ fs).resp.status = 500 ↔
      (env.writeOk = false ∨ env.unlinkOk = false)) ∧
    (env.writeOk = true →
      Ev.fsUnlinkEv (audioPath name) ∈ (recordAudio env ⟨some buf, some name⟩ fs).trace) ∧
    ((recordAudio env ⟨some buf, some name⟩ fs).resp.status = 500 →
      ∃ e, objGet (recordAudio env ⟨some buf, some name⟩ fs).resp.body "error" =
          some (BodyVal.errObj e) ∧
        (e = .fsWriteError (audioPath name) ∨ e = .fsUnlinkError (audioPath name))) := by
  cases hw : env.writeOk <;> cases hu : env.unlinkOk <;>
    simp [recordAudio, truthy, hname, hw, hu, recordServerError, mkObj, objInsert, objGet]

/-- Witness for C10 at a concrete request whose unlink throws. -/
theorem record_audio_500_only_filesystem_witness :
    ((recordAudio envUnlinkFail ⟨some [9], some "a.webm"⟩ []).resp.status = 500 ↔
      (envUnlinkFail.writeOk = false ∨ envUnlinkFail.unlinkOk = false)) ∧
    (envUnlinkFail.writeOk = true →
      Ev.fsUnlinkEv (audioPath "a.webm") ∈
        (recordAudio envUnlinkFail ⟨some [9], some "a.webm"⟩ []).trace) ∧
    ((recordAudio envUnlinkFail ⟨some [9], some "a.webm"⟩ []).resp.status = 500 →
      ∃ e, objGet (recordAudio envUnlinkFail ⟨some [9], some "a.webm"⟩ []).resp.body "error" =
          some (BodyVal.errObj e) ∧
        (e = .fsWriteError (audioPath "a.webm") ∨ e = .fsUnlinkError (audioPath "a.webm"))) :=
  record_audio_500_only_filesystem envUnlinkFail [9] "a.webm" [] (by decide)

/-- C5 counterexample: two `/api/synthesize` calls that observe the same
`Date.now()` millisecond generate the same file name: the responses carry the
same `audioURL` and the second write overwrites the first, leaving a single
output file — the two output files are not distinct. -/
theorem same_timestamp_same_output_file :
    objGet (synthesize envC ⟨some "hola"⟩ []).resp.body "audioURL" =
      objGet (synthesize envC ⟨some "hola"⟩ (synthesize envC ⟨some "hola"⟩ []).fs).resp.body
        "audioURL" ∧
    (synthesize envC ⟨some "hola"⟩ (synthesize envC ⟨some "hola"⟩ []).fs).fs =
      [(audioPath (outputName 7), [1, 2, 3])] := by decide

/-- C5 amended: each synthesized file is written under a generated name of
the form `output_<epoch-millis>.wav`, and two calls that observe distinct
timestamps write two distinct output files, with no deduplication even for
identical input text. -/
theorem distinct_timestamps_distinct_output_files
    (e1 e2 : Env) (t1 t2 : String) (b1 b2 : Bytes) (fs1 fs2 : Fs)
    (ht1 : t1 ≠ "") (ht2 : t2 ≠ "")
    (h1 : e1.synthesize t1 = some b1) (h2 : e2.synthesize t2 = some b2)
    (hw1 : e1.outWriteOk = true) (hw2 : e2.outWriteOk = true)
    (hnow : e1.now ≠ e2.now) :
    outputName e1.now = "output_" ++ toString e1.now ++ ".wav" ∧
    outputName e1.now ≠ outputName e2.now ∧
    audioPath (outputName e1.now) ≠ audioPath (outputName e2.now) ∧
    fsRead (synthesize e1 ⟨some t1⟩ fs1).fs (audioPath (outputName e1.now)) = some b1 ∧
    fsRead (synthesize e2 ⟨some t2⟩ fs2).fs (audioPath (outputName e2.now)) = some b2 := by
  refine ⟨rfl, fun h => hnow (outputName_inj h),
    fun h => hnow (outputName_inj (audioPath_inj h)), ?_, ?_⟩
  · simp [synthesize, truthy, ht1, synthesizer, h1, hw1, fsRead_fsWrite]
  · simp [synthesize, truthy, ht2, synthesizer, h2, hw2, fsRead_fsWrite]

/-- Witness for the amended C5: the same text synthesized at two different
timestamps lands in two distinct files. -/
theorem distinct_timestamps_distinct_output_files_witness :
    outputName envC.now = "output_" ++ toString envC.now ++ ".wav" ∧
    outputName envC.now ≠ outputName ({ envC with now := 8 } : Env).now ∧
    audioPath (outputName envC.now) ≠
      audioPath (outputName ({ envC with now := 8 } : Env).now) ∧
    fsRead (synthesize envC ⟨some "hola"⟩ []).fs (audioPath (outputName envC.now)) =
      some [1, 2, 3] ∧
    fsRead (synthesize { envC with now := 8 } ⟨some "hola"⟩ []).fs
      (audioPath (outputName ({ envC with now := 8 } : Env).now)) = some [1, 2, 3] :=
  distinct_timestamps_distinct_output_files envC { envC with now := 8 }
    "hola" "hola" [1, 2, 3] [1, 2, 3] [] []
    (by decide) (by decide) rfl rfl rfl rfl (by decide)

end AudioServer
